import Mathlib

/-!
Verification development for the yolo-model-tuner-runner FiftyOne panel.

The panel source (src/ModelFineTunerPanel.tsx and src/OperatorButtonWithWarning.tsx)
is shallowly embedded below:

* `tagStats` — the `useMemo` tag-statistics computation of `ModelFineTunerPanel`
  (JavaScript numbers on integer counts are modelled as `Int`; `Math.max` is `max`).
* `trainRatioPct` etc. — the four display-ratio computations (exact rationals,
  mirroring the `total > 0` guard; the source names are `trainRatio`, `valRatio`,
  `bothRatio`, `untaggedRatio`).
* `handleFilterByTag` — the view-filter builder (lists of `MatchTags` stages).
* `PanelState`/`panelStep` — the outcome-handling state of the panel: the
  `isTraining`/`isApplying` flags, the success overlay, the countdown state and
  the `setInterval` countdown closures of `handleTrainSuccess`/`handleApplySuccess`.
  Each element of `intervals` is the local `count` variable of one live countdown
  interval; a `tick` event is one second of wall time, on which every live
  interval fires once, in creation order.
* `ProbeState`/`probeStep` — the menu-availability probe of
  `OperatorButtonWithWarning`: the `isCheckingMenu` flag, the
  `showNoTargetsWarning` flag, and the `checkForEmptyMenu`/stop timers of the
  `useEffect` keyed on `[isCheckingMenu]`.  React semantics embedded: setting a
  boolean state to its current value does not re-render, and an effect keyed on
  an unchanged dependency neither cleans up nor re-runs; the effect cleanup
  (which clears both timers) runs exactly when `isCheckingMenu` changes.
  Poll generations (`pollCount`, and the generation tags on the pending timers)
  instrument which poll owns a timer or raised the warning.
-/

namespace YoloTuner

/-- The `TagStats` interface of `ModelFineTunerPanel`: the five derived counts.
Field names follow the source (`train_count` is the *train-only* count, etc.). -/
structure TagStats where
  train_count : Int
  val_count : Int
  both_count : Int
  total_count : Int
  untagged_count : Int
deriving DecidableEq, Repr

/-- The tag-statistics computation of `ModelFineTunerPanel` (the `useMemo` body):
`both = max(0, train + val - total)`, `trainOnly = train - both`,
`valOnly = val - both`, `tagged = trainOnly + valOnly + both`,
`untagged = max(0, total - tagged)`. -/
def tagStats (trainCount valCount totalCount : Int) : TagStats :=
  let bothCount := max 0 (trainCount + valCount - totalCount)
  let trainOnlyCount := trainCount - bothCount
  let valOnlyCount := valCount - bothCount
  let taggedCount := trainOnlyCount + valOnlyCount + bothCount
  let untaggedCount := max 0 (totalCount - taggedCount)
  { train_count := trainOnlyCount
    val_count := valOnlyCount
    both_count := bothCount
    total_count := totalCount
    untagged_count := untaggedCount }

/-- Source `trainRatio`: `total_count > 0 ? (train_count / total_count) * 100 : 0`,
as an exact rational. -/
def trainRatioPct (s : TagStats) : Rat :=
  if s.total_count > 0 then ((s.train_count : Rat) / (s.total_count : Rat)) * 100 else 0

/-- Source `valRatio`. -/
def valRatioPct (s : TagStats) : Rat :=
  if s.total_count > 0 then ((s.val_count : Rat) / (s.total_count : Rat)) * 100 else 0

/-- Source `bothRatio`. -/
def bothRatioPct (s : TagStats) : Rat :=
  if s.total_count > 0 then ((s.both_count : Rat) / (s.total_count : Rat)) * 100 else 0

/-- Source `untaggedRatio`. -/
def untaggedRatioPct (s : TagStats) : Rat :=
  if s.total_count > 0 then ((s.untagged_count : Rat) / (s.total_count : Rat)) * 100 else 0

/-- Source `isReadyToTrain`:
`(train_count > 0 || both_count > 0) && (val_count > 0 || both_count > 0)`. -/
def isReadyToTrain (s : TagStats) : Bool :=
  (decide (s.train_count > 0) || decide (s.both_count > 0)) &&
    (decide (s.val_count > 0) || decide (s.both_count > 0))

/-- The `disabled` prop of the Start Training `OperatorButtonWithWarning`:
`isTraining || !isReadyToTrain`. -/
def startTrainingDisabled (isTraining : Bool) (s : TagStats) : Bool :=
  isTraining || !(isReadyToTrain s)

/-- A kwarg value of a view stage: either a list of tag names or a boolean. -/
inductive KwargValue where
  | strings (vals : List String)
  | boolean (b : Bool)
deriving DecidableEq, Repr

/-- One view-filter stage as built by `handleFilterByTag`:
`{ _cls: ..., kwargs: [[key, value], ...] }`. -/
structure ViewStage where
  _cls : String
  kwargs : List (String × KwargValue)
deriving DecidableEq, Repr

/-- Source `handleFilterByTag` (argument `tag : string | null` is `Option String`).
Builds the stage list passed to `setView`. -/
def handleFilterByTag (tag : Option String) : List ViewStage :=
  match tag with
  | none => []
  | some tag =>
    if tag = "untagged" then
      [{ _cls := "fiftyone.core.stages.MatchTags"
         kwargs := [("tags", KwargValue.strings ["train", "val"]),
                    ("bool", KwargValue.boolean false)] }]
    else if tag = "both" then
      [{ _cls := "fiftyone.core.stages.MatchTags"
         kwargs := [("tags", KwargValue.strings ["train"])] },
       { _cls := "fiftyone.core.stages.MatchTags"
         kwargs := [("tags", KwargValue.strings ["val"])] }]
    else
      [{ _cls := "fiftyone.core.stages.MatchTags"
         kwargs := [("tags", KwargValue.strings [tag])] }]

/-- A stage that matches exactly the single tag `t` (no exclusion kwarg). -/
def matchTagStage (t : String) : ViewStage :=
  { _cls := "fiftyone.core.stages.MatchTags"
    kwargs := [("tags", KwargValue.strings [t])] }

/-- The exclusion stage over the tag set `ts` (`["bool", false]` kwarg). -/
def excludeTagsStage (ts : List String) : ViewStage :=
  { _cls := "fiftyone.core.stages.MatchTags"
    kwargs := [("tags", KwargValue.strings ts), ("bool", KwargValue.boolean false)] }

/-- The outcome-handling state of `ModelFineTunerPanel`: the React state touched
by `handleTrainStart`/`handleTrainSuccess`/`handleTrainError` (and the `apply`
twins) plus the live `setInterval` countdown closures.  Each entry of
`intervals` is the local `count` variable of one running countdown interval,
in creation order. -/
structure PanelState where
  isTraining : Bool
  isApplying : Bool
  showSuccessOverlay : Bool
  successMessage : String
  countdown : Int
  intervals : List Int
deriving DecidableEq, Repr

/-- Initial panel state: `useState` initialisers
(`isTraining = false`, `isApplying = false`, `showSuccessOverlay = false`,
`successMessage = ""`, `countdown = 5`, no interval running). -/
def initPanelState : PanelState :=
  { isTraining := false
    isApplying := false
    showSuccessOverlay := false
    successMessage := ""
    countdown := 5
    intervals := [] }

/-- Events driving the panel state: the panel callbacks as invoked by the
execution machinery, plus one second of wall time (`tick`), on which every live
countdown interval fires once. -/
inductive PanelEvent where
  | trainStart (isDelegated : Bool)
  | trainSuccess (delegated : Bool)
  | trainError
  | applyStart (isDelegated : Bool)
  | applySuccess (delegated : Bool)
  | applyError
  | tick
deriving DecidableEq, Repr

/-- One second of wall time: every live interval closure fires once, in creation
order.  Each firing does `count--; setCountdown(count)` and, when its count hits
`0`, clears itself and hides the overlay (source `handleTrainSuccess` /
`handleApplySuccess` countdown closure). -/
def panelTick (s : PanelState) : PanelState :=
  match s.intervals with
  | [] => s
  | is =>
    let ds := is.map (fun c => c - 1)
    { s with
      countdown := ds.getLastD s.countdown
      intervals := ds.filter (fun c => c != 0)
      showSuccessOverlay := if ds.any (fun c => c == 0) then false else s.showSuccessOverlay }

/-- The panel step function, straight from the handlers in
`ModelFineTunerPanel`:

* `trainStart` is `handleTrainStart` (`setIsTraining(true)`);
* `trainSuccess` is `handleTrainSuccess`: `setIsTraining(false)`, and when the
  response is delegated, set the message, show the overlay, `setCountdown(5)`
  and start a countdown interval with local `count = 5`;
* `trainError` is `handleTrainError` (`setIsTraining(false)`);
* the `apply` events are the identical `handleApplyStart` /
  `handleApplySuccess` / `handleApplyError` on `isApplying`;
* `tick` is `panelTick`. -/
def panelStep (s : PanelState) : PanelEvent → PanelState
  | .trainStart _ => { s with isTraining := true }
  | .trainSuccess delegated =>
    if delegated then
      { s with isTraining := false
               successMessage := "Training successfully scheduled!"
               showSuccessOverlay := true
               countdown := 5
               intervals := s.intervals ++ [5] }
    else { s with isTraining := false }
  | .trainError => { s with isTraining := false }
  | .applyStart _ => { s with isApplying := true }
  | .applySuccess delegated =>
    if delegated then
      { s with isApplying := false
               successMessage := "Model application successfully scheduled!"
               showSuccessOverlay := true
               countdown := 5
               intervals := s.intervals ++ [5] }
    else { s with isApplying := false }
  | .applyError => { s with isApplying := false }
  | .tick => panelTick s

/-- Run the panel from the initial state over a list of events. -/
def panelRun (events : List PanelEvent) : PanelState :=
  events.foldl panelStep initPanelState

/-- Every panel event (`Bool` arguments instantiated both ways). -/
def allPanelEvents : List PanelEvent :=
  [.trainStart true, .trainStart false, .trainSuccess true, .trainSuccess false,
   .trainError, .applyStart true, .applyStart false, .applySuccess true,
   .applySuccess false, .applyError, .tick]

/-- Modelled from the spec: the external `OperatorExecutionButton`
(`@fiftyone/operators`, not part of this repository) invokes `onOptionSelected`
when the user picks an execution target and then, when the job resolves,
invokes `onSuccess` — in that order.  A submission that resolves as a delegated
success therefore delivers `trainStart` followed by `trainSuccess true` to the
panel handlers, after which `j` seconds of wall time elapse. -/
def delegatedTrainTrace (j : Nat) : List PanelEvent :=
  [.trainStart true, .trainSuccess true] ++ List.replicate j .tick

/-- The panel state right after a delegated training success
(option selected, then delegated success, no time elapsed). -/
def notifyingState : PanelState :=
  panelRun (delegatedTrainTrace 0)

/-- Modelled from the spec: a submission whose execution provider fails causes
the external `OperatorExecutionButton` to invoke `onError` exactly once with
the failure; the panel sees the option-selection callback followed by one
`trainError`. -/
def trainFailureTrace (d : Bool) : List PanelEvent :=
  [.trainStart d, .trainError]

/-- Modelled from the spec: the apply-model analogue of `trainFailureTrace`. -/
def applyFailureTrace (d : Bool) : List PanelEvent :=
  [.applyStart d, .applyError]

/-- Number of error-callback invocations recorded in a trace. -/
def countErrorEvents (events : List PanelEvent) : Nat :=
  events.countP fun e =>
    match e with
    | .trainError => true
    | .applyError => true
    | _ => false

/-- The probe state of `OperatorButtonWithWarning`: the two React boolean
states, plus the pending timers of the menu-check `useEffect` (tagged with the
generation of the poll that owns them) and instrumentation recording how many
polls have started and which poll raised the visible warning. -/
structure ProbeState where
  isCheckingMenu : Bool
  showNoTargetsWarning : Bool
  pollCount : Nat
  checkPending : Option Nat
  stopPending : Option Nat
  warningPoll : Option Nat
deriving DecidableEq, Repr

/-- Initial probe state (`useState(false)` twice, no timers, no polls yet). -/
def initProbeState : ProbeState :=
  { isCheckingMenu := false
    showNoTargetsWarning := false
    pollCount := 0
    checkPending := none
    stopPending := none
    warningPoll := none }

/-- What one execution of `checkForEmptyMenu` observes in the DOM:
no visible popover surface, a visible surface with zero menu items, or a
visible surface with at least one menu item. -/
inductive MenuObservation where
  | absent
  | empty
  | populated
deriving DecidableEq, Repr

/-- Events driving the probe: a click on the button wrapper (with the current
`disabled` prop), the pending `checkForEmptyMenu` timeout firing with a DOM
observation, the 500ms stop timeout firing, and the wrapped
`handleOptionSelected` callback. -/
inductive ProbeEvent where
  | wrapperClick (disabled : Bool)
  | checkFires (m : MenuObservation)
  | stopFires
  | optionSelected
deriving DecidableEq, Repr

/-- The probe step function, from `OperatorButtonWithWarning`:

* `wrapperClick`: `handleWrapperClick` does `setIsCheckingMenu(true)` unless
  disabled.  If `isCheckingMenu` is already `true`, React bails out (same
  value) and the effect keyed on `[isCheckingMenu]` neither cleans up nor
  re-runs, so the outstanding poll keeps its timers; otherwise the effect runs
  and schedules the menu-check timeout and the 500ms stop timeout for a new
  poll generation.
* `checkFires m`: the pending `checkForEmptyMenu` executes.  No visible menu:
  it reschedules itself (`checkTimeoutRef` is non-null), staying pending.
  A visible empty menu: `setShowNoTargetsWarning(true)`,
  `setIsCheckingMenu(false)`; the dependency change runs the effect cleanup,
  clearing both timers.  A visible populated menu: `setIsCheckingMenu(false)`
  and cleanup.
* `stopFires`: the 500ms stop timeout: `setIsCheckingMenu(false)`, clears the
  check timeout, and the dependency change cleans up both timers.
* `optionSelected`: `handleOptionSelected` hides the warning. -/
def probeStep (s : ProbeState) : ProbeEvent → ProbeState
  | .wrapperClick disabled =>
    if disabled then s
    else if s.isCheckingMenu then s
    else
      let g := s.pollCount + 1
      { s with isCheckingMenu := true
               pollCount := g
               checkPending := some g
               stopPending := some g }
  | .checkFires m =>
    match s.checkPending with
    | none => s
    | some g =>
      match m with
      | .absent => s
      | .empty =>
        { s with showNoTargetsWarning := true
                 warningPoll := some g
                 isCheckingMenu := false
                 checkPending := none
                 stopPending := none }
      | .populated =>
        { s with isCheckingMenu := false
                 checkPending := none
                 stopPending := none }
  | .stopFires =>
    match s.stopPending with
    | none => s
    | some _ =>
      { s with isCheckingMenu := false
               checkPending := none
               stopPending := none }
  | .optionSelected =>
    { s with showNoTargetsWarning := false
             warningPoll := none }

/-- Run the probe from the initial state over a list of events. -/
def probeRun (events : List ProbeEvent) : ProbeState :=
  events.foldl probeStep initProbeState

/-- Two enabled triggers in quick succession, then the still-pending menu check
of the first poll observes a visible empty menu. -/
def staleWarningTrace : List ProbeEvent :=
  [.wrapperClick false, .wrapperClick false, .checkFires .empty]

/-! Field-computation lemmas for `tagStats`, by definitional unfolding. -/

/-- The `train_count` field of `tagStats` is `train - max 0 (train + val - total)`. -/
theorem tagStats_train_count (t v T : Int) :
    (tagStats t v T).train_count = t - max 0 (t + v - T) := rfl

/-- The `val_count` field of `tagStats` is `val - max 0 (train + val - total)`. -/
theorem tagStats_val_count (t v T : Int) :
    (tagStats t v T).val_count = v - max 0 (t + v - T) := rfl

/-- The `both_count` field of `tagStats` is `max 0 (train + val - total)`. -/
theorem tagStats_both_count (t v T : Int) :
    (tagStats t v T).both_count = max 0 (t + v - T) := rfl

/-- The `total_count` field of `tagStats` is the input total. -/
theorem tagStats_total_count (t v T : Int) :
    (tagStats t v T).total_count = T := rfl

/-- The `untagged_count` field of `tagStats` is `max 0 (total - tagged)`. -/
theorem tagStats_untagged_count (t v T : Int) :
    (tagStats t v T).untagged_count =
      max 0 (T - ((t - max 0 (t + v - T)) + (v - max 0 (t + v - T)) + max 0 (t + v - T))) := rfl

/-- Every panel event is listed in `allPanelEvents`. -/
theorem allPanelEvents_complete : ∀ e : PanelEvent, e ∈ allPanelEvents := by
  intro e
  cases e with
  | trainStart b => cases b <;> decide
  | trainSuccess b => cases b <;> decide
  | trainError => decide
  | applyStart b => cases b <;> decide
  | applySuccess b => cases b <;> decide
  | applyError => decide
  | tick => decide

/-- C1: for all integers `train`, `val`, `total` with `0 ≤ train ≤ total` and
`0 ≤ val ≤ total`, the `tagStats` computation satisfies
`trainOnly + valOnly + both + untagged = total` and each of the four derived
counts is non-negative. -/
theorem tagStats_partition (t v T : Int)
    (htn : 0 ≤ t) (htt : t ≤ T) (hvn : 0 ≤ v) (hvt : v ≤ T) :
    (tagStats t v T).train_count + (tagStats t v T).val_count +
        (tagStats t v T).both_count + (tagStats t v T).untagged_count =
      (tagStats t v T).total_count ∧
    0 ≤ (tagStats t v T).train_count ∧ 0 ≤ (tagStats t v T).val_count ∧
    0 ≤ (tagStats t v T).both_count ∧ 0 ≤ (tagStats t v T).untagged_count := by
  simp only [tagStats_train_count, tagStats_val_count, tagStats_both_count,
    tagStats_total_count, tagStats_untagged_count]
  omega

/-- Witness for C1 at `train = 60`, `val = 60`, `total = 100`
(the overlap example of the spec). -/
theorem tagStats_partition_witness :
    (0 : Int) ≤ 60 ∧ (60 : Int) ≤ 100 ∧
    ((tagStats 60 60 100).train_count + (tagStats 60 60 100).val_count +
        (tagStats 60 60 100).both_count + (tagStats 60 60 100).untagged_count =
      (tagStats 60 60 100).total_count ∧
    0 ≤ (tagStats 60 60 100).train_count ∧ 0 ≤ (tagStats 60 60 100).val_count ∧
    0 ≤ (tagStats 60 60 100).both_count ∧ 0 ≤ (tagStats 60 60 100).untagged_count) :=
  ⟨by decide, by decide,
    tagStats_partition 60 60 100 (by decide) (by decide) (by decide) (by decide)⟩

/-- C2 counterexample: on the inconsistent input `train = 10`, `val = 0`,
`total = 5` (all inputs non-negative, `train > total`), the computation
produces the negative output `valOnly = -5`: `valOnly = val - both` is not
clamped, refuting the claim that every output is clamped non-negative. -/
theorem tagStats_inconsistent_counterexample :
    (tagStats 10 0 5).val_count = -5 ∧ ¬ (0 ≤ (tagStats 10 0 5).val_count) := by
  decide

/-- C2 amended: for every integer input, `tagStats` is total (it never fails)
and the two outputs the source actually clamps with `Math.max`, `both_count`
and `untagged_count`, are always non-negative; `train_count` and `val_count`
are computed by unclamped subtraction and can be negative when a tag count
exceeds the total. -/
theorem tagStats_clamped_fields (t v T : Int) :
    0 ≤ (tagStats t v T).both_count ∧ 0 ≤ (tagStats t v T).untagged_count := by
  simp only [tagStats_both_count, tagStats_untagged_count]
  omega

/-- C3 counterexample: at `train = 3`, `val = 0`, `total = 0` the result is not
all-zero: `both = max(0, 3 + 0 - 0) = 3` and `valOnly = 0 - 3 = -3`. -/
theorem tagStats_total_zero_counterexample :
    (tagStats 3 0 0).val_count = -3 ∧ (tagStats 3 0 0).both_count = 3 ∧
    ¬ ((tagStats 3 0 0).train_count = 0 ∧ (tagStats 3 0 0).val_count = 0 ∧
        (tagStats 3 0 0).both_count = 0 ∧ (tagStats 3 0 0).untagged_count = 0) := by
  decide

/-- C3 amended: with `total = 0` and non-negative `train`, `val`, the
computation involves no division and yields
`both = train + val`, `trainOnly = -val`, `valOnly = -train`, `untagged = 0`;
the four category counts are all zero exactly when `train = val = 0`. -/
theorem tagStats_total_zero (t v : Int) (ht : 0 ≤ t) (hv : 0 ≤ v) :
    tagStats t v 0 =
      { train_count := -v, val_count := -t, both_count := t + v,
        total_count := 0, untagged_count := 0 } ∧
    ((tagStats t v 0).train_count = 0 ∧ (tagStats t v 0).val_count = 0 ∧
        (tagStats t v 0).both_count = 0 ∧ (tagStats t v 0).untagged_count = 0 ↔
      t = 0 ∧ v = 0) := by
  constructor
  · simp only [tagStats, TagStats.mk.injEq, and_true, true_and]
    omega
  · simp only [tagStats_train_count, tagStats_val_count, tagStats_both_count,
      tagStats_untagged_count]
    omega

/-- Witness for C3 amended at `train = 3`, `val = 0`. -/
theorem tagStats_total_zero_witness :
    (0 : Int) ≤ 3 ∧ (0 : Int) ≤ 0 ∧
    (tagStats 3 0 0 =
      { train_count := 0, val_count := -3, both_count := 3,
        total_count := 0, untagged_count := 0 } ∧
    ((tagStats 3 0 0).train_count = 0 ∧ (tagStats 3 0 0).val_count = 0 ∧
        (tagStats 3 0 0).both_count = 0 ∧ (tagStats 3 0 0).untagged_count = 0 ↔
      (3 : Int) = 0 ∧ (0 : Int) = 0)) :=
  ⟨by decide, by decide, tagStats_total_zero 3 0 (by decide) (by decide)⟩

/-- C4: the filter builder `handleFilterByTag` returns, for `"both"`, exactly
two stages, one matching tag `train` and one matching tag `val`, in that fixed
order; for `null`, the empty sequence; for `"untagged"`, exactly one exclusion
stage over the tag set `{train, val}`; and for `"train"` / `"val"`, exactly one
stage matching only that single tag (a `matchTagStage` carries no exclusion
kwarg, so the other tag is not excluded). -/
theorem handleFilterByTag_cases :
    handleFilterByTag none = [] ∧
    handleFilterByTag (some "untagged") = [excludeTagsStage ["train", "val"]] ∧
    handleFilterByTag (some "both") = [matchTagStage "train", matchTagStage "val"] ∧
    handleFilterByTag (some "train") = [matchTagStage "train"] ∧
    handleFilterByTag (some "val") = [matchTagStage "val"] :=
  ⟨rfl, rfl, rfl, rfl, rfl⟩

/-- C5 counterexample: the notification created by a delegated success offers
no manual dismissal.  Right after the delegated success the overlay is visible
with countdown 5, and no panel event — in particular no user-initiated
callback, `allPanelEvents` being the complete event alphabet by
`allPanelEvents_complete` — hides the overlay in one step; the overlay only
disappears once the countdown ticks down to 0 (five ticks later).  This
refutes the dismissal clause of the claim: there is no manual dismissal whose
occurrence could hide the notification before the countdown reaches 0. -/
theorem notification_no_manual_dismiss :
    notifyingState.showSuccessOverlay = true ∧ notifyingState.countdown = 5 ∧
    (allPanelEvents.all fun e => (panelStep notifyingState e).showSuccessOverlay) = true ∧
    (panelRun (delegatedTrainTrace 4)).showSuccessOverlay = true ∧
    (panelRun (delegatedTrainTrace 5)).showSuccessOverlay = false := by
  decide

/-- C5 amended: when a submitted training job resolves as a delegated success,
the option-selected callback runs before the success callback (driver
modelled from the spec): after `onOptionSelected` alone, `isTraining = true`
and no overlay is shown yet; the success callback then shows the notification
with the countdown at 5; the countdown decrements by exactly 1 once per timer
tick, and the notification becomes invisible exactly when the countdown
reaches 0 — after the fifth tick.  The code offers no manual dismissal of the
notification, so dismissal never occurs. -/
theorem delegated_notification_countdown :
    (panelRun [PanelEvent.trainStart true]).isTraining = true ∧
    (panelRun [PanelEvent.trainStart true]).showSuccessOverlay = false ∧
    notifyingState.isTraining = false ∧
    notifyingState.showSuccessOverlay = true ∧
    notifyingState.countdown = 5 ∧
    ∀ j < 6, (panelRun (delegatedTrainTrace j)).countdown = 5 - (j : Int) ∧
      ((panelRun (delegatedTrainTrace j)).showSuccessOverlay = true ↔ j < 5) := by
  decide

/-- Witness for C5 amended, three ticks into the countdown. -/
theorem delegated_notification_countdown_witness :
    3 < 6 ∧
    ((panelRun (delegatedTrainTrace 3)).countdown = 5 - (3 : Int) ∧
      ((panelRun (delegatedTrainTrace 3)).showSuccessOverlay = true ↔ 3 < 5)) :=
  ⟨by decide, delegated_notification_countdown.2.2.2.2.2 3 (by decide)⟩

/-- C6 counterexample: after two enabled triggers in quick succession, the
first poll is still the one outstanding — its check timer is pending with
generation 1 and no second poll ever started (`pollCount = 1`) — and when that
pending check then observes a visible empty menu, the stale warning from the
first trigger fires after the second trigger (`warningPoll = some 1`).  This
refutes the claim that a second trigger cancels the first poll and that only
the second poll has an observable outcome. -/
theorem stale_warning_after_second_trigger :
    (probeRun [ProbeEvent.wrapperClick false, ProbeEvent.wrapperClick false]).checkPending =
      some 1 ∧
    (probeRun [ProbeEvent.wrapperClick false, ProbeEvent.wrapperClick false]).pollCount = 1 ∧
    (probeRun staleWarningTrace).showNoTargetsWarning = true ∧
    (probeRun staleWarningTrace).warningPoll = some 1 := by
  decide

/-- C6 amended: a trigger that fires while a poll is still outstanding
(`isCheckingMenu = true`) is a no-op: `setIsCheckingMenu(true)` leaves the
state unchanged, the effect keyed on `[isCheckingMenu]` neither cleans up nor
restarts, so the previous poll is NOT cancelled and its outcome (warning or
silent stop) remains observable.  A previous poll is only torn down when
`isCheckingMenu` resets — on menu detection, on the 500ms stop timeout, or on
unmount — before the next trigger. -/
theorem second_trigger_preserves_poll (s : ProbeState) (h : s.isCheckingMenu = true) :
    probeStep s (ProbeEvent.wrapperClick false) = s := by
  simp [probeStep, h]

/-- Witness for C6 amended: the state right after a first enabled trigger is
mid-poll, and a second trigger leaves it unchanged. -/
theorem second_trigger_preserves_poll_witness :
    (probeRun [ProbeEvent.wrapperClick false]).isCheckingMenu = true ∧
    probeStep (probeRun [ProbeEvent.wrapperClick false]) (ProbeEvent.wrapperClick false) =
      probeRun [ProbeEvent.wrapperClick false] :=
  ⟨by decide, second_trigger_preserves_poll (probeRun [ProbeEvent.wrapperClick false]) (by decide)⟩

/-- C7: for either execution option, a provider failure delivered to the error
handler (exactly one `onError` per failed submission, driver modelled from the
spec: `countErrorEvents = 1`) clears the pending flag (`isTraining`
respectively `isApplying` returns to `false`, re-enabling submission), leaves
no notification overlay, and leaves no countdown interval running — for both
the training and the apply-model paths. -/
theorem provider_failure_returns_idle :
    ∀ d : Bool,
      (panelRun (trainFailureTrace d)).isTraining = false ∧
      (panelRun (trainFailureTrace d)).showSuccessOverlay = false ∧
      (panelRun (trainFailureTrace d)).intervals = [] ∧
      countErrorEvents (trainFailureTrace d) = 1 ∧
      (panelRun (applyFailureTrace d)).isApplying = false ∧
      (panelRun (applyFailureTrace d)).showSuccessOverlay = false ∧
      (panelRun (applyFailureTrace d)).intervals = [] ∧
      countErrorEvents (applyFailureTrace d) = 1 := by
  decide

/-- C8: each of the four display ratios is computed as
`count / total * 100` only under the `total_count > 0` guard and defaults to 0
whenever the total is 0, so the division branch is never taken when the
total is 0: at `total = 0` every ratio of `tagStats` is 0, and for any stats
with positive total each ratio equals its `count / total * 100`. -/
theorem displayRatios_guard :
    (∀ t v : Int,
      trainRatioPct (tagStats t v 0) = 0 ∧ valRatioPct (tagStats t v 0) = 0 ∧
      bothRatioPct (tagStats t v 0) = 0 ∧ untaggedRatioPct (tagStats t v 0) = 0) ∧
    (∀ s : TagStats, 0 < s.total_count →
      trainRatioPct s = (s.train_count : Rat) / (s.total_count : Rat) * 100 ∧
      valRatioPct s = (s.val_count : Rat) / (s.total_count : Rat) * 100 ∧
      bothRatioPct s = (s.both_count : Rat) / (s.total_count : Rat) * 100 ∧
      untaggedRatioPct s = (s.untagged_count : Rat) / (s.total_count : Rat) * 100) := by
  constructor
  · intro t v
    simp [trainRatioPct, valRatioPct, bothRatioPct, untaggedRatioPct, tagStats_total_count]
  · intro s h
    simp [trainRatioPct, valRatioPct, bothRatioPct, untaggedRatioPct, h]

/-- Witness for C8 on the stats of `train = 60`, `val = 60`, `total = 100`. -/
theorem displayRatios_guard_witness :
    0 < (tagStats 60 60 100).total_count ∧
    trainRatioPct (tagStats 60 60 100) =
      ((tagStats 60 60 100).train_count : Rat) / ((tagStats 60 60 100).total_count : Rat) * 100 :=
  ⟨by decide, (displayRatios_guard.2 (tagStats 60 60 100) (by decide)).1⟩

/-- C9: the Start Training button is enabled (`disabled` prop false) exactly
when no submission is pending and `isReadyToTrain` holds, and — with
consistent raw counts `0 ≤ train ≤ total`, `0 ≤ val ≤ total` — the
`isReadyToTrain` predicate `(trainOnly > 0 ∨ both > 0) ∧ (valOnly > 0 ∨ both > 0)`
on the computed stats holds iff at least one sample carries the train tag
(`0 < train`) and at least one carries the val tag (`0 < val`). -/
theorem ready_to_train_characterisation (b : Bool) (t v T : Int)
    (htn : 0 ≤ t) (htt : t ≤ T) (hvn : 0 ≤ v) (hvt : v ≤ T) :
    (isReadyToTrain (tagStats t v T) = true ↔ 0 < t ∧ 0 < v) ∧
    (startTrainingDisabled b (tagStats t v T) = false ↔ b = false ∧ 0 < t ∧ 0 < v) := by
  cases b <;>
    simp [isReadyToTrain, startTrainingDisabled, tagStats_train_count, tagStats_val_count,
      tagStats_both_count] <;>
    omega

/-- Witness for C9 at `isTraining = false`, `train = 60`, `val = 60`,
`total = 100`. -/
theorem ready_to_train_characterisation_witness :
    (0 : Int) ≤ 60 ∧ (60 : Int) ≤ 100 ∧
    ((isReadyToTrain (tagStats 60 60 100) = true ↔ (0 : Int) < 60 ∧ (0 : Int) < 60) ∧
      (startTrainingDisabled false (tagStats 60 60 100) = false ↔
        false = false ∧ (0 : Int) < 60 ∧ (0 : Int) < 60)) :=
  ⟨by decide, by decide,
    ready_to_train_characterisation false 60 60 100 (by decide) (by decide) (by decide) (by decide)⟩

/-- C10: for all integer inputs, including inconsistent ones, `tagStats`
preserves the raw tag totals exactly: `trainOnly + both = train`,
`valOnly + both = val`, and hence
`trainOnly + valOnly + 2 * both = train + val`; no clamping touches these
sums. -/
theorem tagStats_preserves_tag_totals (t v T : Int) :
    (tagStats t v T).train_count + (tagStats t v T).both_count = t ∧
    (tagStats t v T).val_count + (tagStats t v T).both_count = v ∧
    (tagStats t v T).train_count + (tagStats t v T).val_count +
        2 * (tagStats t v T).both_count = t + v := by
  simp only [tagStats_train_count, tagStats_val_count, tagStats_both_count]
  omega

end YoloTuner
